import Mathlib

/-!
Verification of the Orbit Vulkan layer dispatch-table registry
(src/OrbitVulkanLayer/DispatchTable.h) and of the frame-pointer validator
interface (src/OrbitFramePointerValidator/.../FramePointerValidator.h).

The registry is shallowly embedded: a function pointer is a natural number
(0 playing the role of nullptr), a dispatchable handle is an address, and
memory is a map from addresses to machine words, so that
GetDispatchTableKey can read the first word stored at the handle's address.
A fatal CHECK is modelled by returning none: an operation returns some of
its result (and, for mutators, of the new registry state) exactly when no
CHECK fires.
-/

/-- A function pointer value; 0 plays the role of nullptr. -/
abbrev FnPtr := Nat

/-- The null function pointer. -/
def nullPtr : FnPtr := 0

/-- A dispatchable Vulkan handle, modelled as the address it refers to. -/
abbrev Handle := Nat

/-- Process memory: a map from addresses to machine words. The first word
stored at a dispatchable handle's address is the dispatch-table key. -/
abbrev Memory := Nat → Nat

/-- A dispatch-table key: the opaque identity value derived from a handle. -/
abbrev DispatchKey := Nat

/-- A proc-address resolver such as PFN_vkGetInstanceProcAddr or
PFN_vkGetDeviceProcAddr: given a handle and a function name it yields the
next layer's pointer for that function (possibly null). -/
abbrev Resolver := Handle → String → FnPtr

/-- The instance-level dispatch table VkLayerInstanceDispatchTable,
restricted to the fields CreateInstanceDispatchTable populates. -/
structure VkLayerInstanceDispatchTable where
  DestroyInstance : FnPtr
  GetInstanceProcAddr : FnPtr
  EnumerateDeviceExtensionProperties : FnPtr
  GetPhysicalDeviceProperties : FnPtr

/-- The device-level dispatch table VkLayerDispatchTable, restricted to the
fields CreateDeviceDispatchTable populates. -/
structure VkLayerDispatchTable where
  DestroyDevice : FnPtr
  GetDeviceProcAddr : FnPtr
  ResetCommandPool : FnPtr
  AllocateCommandBuffers : FnPtr
  FreeCommandBuffers : FnPtr
  BeginCommandBuffer : FnPtr
  EndCommandBuffer : FnPtr
  ResetCommandBuffer : FnPtr
  QueueSubmit : FnPtr
  QueuePresentKHR : FnPtr
  GetDeviceQueue : FnPtr
  GetDeviceQueue2 : FnPtr
  CreateQueryPool : FnPtr
  ResetQueryPoolEXT : FnPtr
  CmdWriteTimestamp : FnPtr
  GetQueryPoolResults : FnPtr
  CmdBeginDebugUtilsLabelEXT : FnPtr
  CmdEndDebugUtilsLabelEXT : FnPtr
  CmdDebugMarkerBeginEXT : FnPtr
  CmdDebugMarkerEndEXT : FnPtr

/-- The state of the registry: the four absl::flat_hash_map members of class
DispatchTable, each modelled as a partial map on keys. (The absl::Mutex
member only guards these maps and holds no data.) -/
structure DispatchTable where
  instance_dispatch_table_ : DispatchKey → Option VkLayerInstanceDispatchTable
  device_dispatch_table_ : DispatchKey → Option VkLayerDispatchTable
  device_supports_debug_marker_extension_ : DispatchKey → Option Bool
  device_supports_debug_utils_extension_ : DispatchKey → Option Bool

/-- The default-constructed DispatchTable: all four maps empty. -/
def DispatchTable.init : DispatchTable where
  instance_dispatch_table_ := fun _ => none
  device_dispatch_table_ := fun _ => none
  device_supports_debug_marker_extension_ := fun _ => none
  device_supports_debug_utils_extension_ := fun _ => none

/-- map[key] = v on an absl::flat_hash_map modelled as a partial map. -/
def mapInsert {V : Type} (m : DispatchKey → Option V) (key : DispatchKey) (v : V) :
    DispatchKey → Option V :=
  fun k => if k = key then some v else m k

/-- map.erase(key) on an absl::flat_hash_map modelled as a partial map. -/
def mapErase {V : Type} (m : DispatchKey → Option V) (key : DispatchKey) :
    DispatchKey → Option V :=
  fun k => if k = key then none else m k

/-- GetDispatchTableKey: reads the first machine word stored at the address
referenced by the dispatchable handle (return asterisk
absl::bit_cast of void pointer pointer of dispatchable_object). -/
def GetDispatchTableKey (mem : Memory) (dispatchable_object : Handle) : DispatchKey :=
  mem dispatchable_object

/-- The local VkLayerInstanceDispatchTable that CreateInstanceDispatchTable
builds by resolving each instance-level function by name through
next_get_instance_proc_addr_function. -/
def resolvedInstanceDispatchTable (inst : Handle)
    (next_get_instance_proc_addr_function : Resolver) : VkLayerInstanceDispatchTable where
  DestroyInstance := next_get_instance_proc_addr_function inst "vkDestroyInstance"
  GetInstanceProcAddr := next_get_instance_proc_addr_function inst "vkGetInstanceProcAddr"
  EnumerateDeviceExtensionProperties :=
    next_get_instance_proc_addr_function inst "vkEnumerateDeviceExtensionProperties"
  GetPhysicalDeviceProperties :=
    next_get_instance_proc_addr_function inst "vkGetPhysicalDeviceProperties"

/-- The local VkLayerDispatchTable that CreateDeviceDispatchTable builds by
resolving each device-level function by name through
next_get_device_proc_addr_function. -/
def resolvedDeviceDispatchTable (device : Handle)
    (next_get_device_proc_addr_function : Resolver) : VkLayerDispatchTable where
  DestroyDevice := next_get_device_proc_addr_function device "vkDestroyDevice"
  GetDeviceProcAddr := next_get_device_proc_addr_function device "vkGetDeviceProcAddr"
  ResetCommandPool := next_get_device_proc_addr_function device "vkResetCommandPool"
  AllocateCommandBuffers := next_get_device_proc_addr_function device "vkAllocateCommandBuffers"
  FreeCommandBuffers := next_get_device_proc_addr_function device "vkFreeCommandBuffers"
  BeginCommandBuffer := next_get_device_proc_addr_function device "vkBeginCommandBuffer"
  EndCommandBuffer := next_get_device_proc_addr_function device "vkEndCommandBuffer"
  ResetCommandBuffer := next_get_device_proc_addr_function device "vkResetCommandBuffer"
  QueueSubmit := next_get_device_proc_addr_function device "vkQueueSubmit"
  QueuePresentKHR := next_get_device_proc_addr_function device "vkQueuePresentKHR"
  GetDeviceQueue := next_get_device_proc_addr_function device "vkGetDeviceQueue"
  GetDeviceQueue2 := next_get_device_proc_addr_function device "vkGetDeviceQueue2"
  CreateQueryPool := next_get_device_proc_addr_function device "vkCreateQueryPool"
  ResetQueryPoolEXT := next_get_device_proc_addr_function device "vkResetQueryPoolEXT"
  CmdWriteTimestamp := next_get_device_proc_addr_function device "vkCmdWriteTimestamp"
  GetQueryPoolResults := next_get_device_proc_addr_function device "vkGetQueryPoolResults"
  CmdBeginDebugUtilsLabelEXT :=
    next_get_device_proc_addr_function device "vkCmdBeginDebugUtilsLabelEXT"
  CmdEndDebugUtilsLabelEXT :=
    next_get_device_proc_addr_function device "vkCmdEndDebugUtilsLabelEXT"
  CmdDebugMarkerBeginEXT := next_get_device_proc_addr_function device "vkCmdDebugMarkerBeginEXT"
  CmdDebugMarkerEndEXT := next_get_device_proc_addr_function device "vkCmdDebugMarkerEndEXT"

/-- CreateInstanceDispatchTable: resolves the instance-level forwarding
pointers, derives the key from the instance handle, CHECKs the key is not
yet in instance_dispatch_table_ (none if the CHECK fires, i.e. fatal) and
stores the new table under the key. -/
def CreateInstanceDispatchTable (s : DispatchTable) (mem : Memory) (inst : Handle)
    (next_get_instance_proc_addr_function : Resolver) : Option DispatchTable :=
  let dispatch_table := resolvedInstanceDispatchTable inst next_get_instance_proc_addr_function
  let key := GetDispatchTableKey mem inst
  if (s.instance_dispatch_table_ key).isSome then none
  else some { s with
    instance_dispatch_table_ := mapInsert s.instance_dispatch_table_ key dispatch_table }

/-- RemoveInstanceDispatchTable: CHECKs the key is present in
instance_dispatch_table_ (none if the CHECK fires) and erases it. -/
def RemoveInstanceDispatchTable (s : DispatchTable) (mem : Memory) (inst : Handle) :
    Option DispatchTable :=
  let key := GetDispatchTableKey mem inst
  if (s.instance_dispatch_table_ key).isSome then
    some { s with instance_dispatch_table_ := mapErase s.instance_dispatch_table_ key }
  else none

/-- CreateDeviceDispatchTable: resolves the device-level forwarding
pointers, derives the key from the device handle, then, in source order,
CHECKs and inserts into device_dispatch_table_, computes and CHECKs and
inserts the debug-utils flag (both label pointers non-null), and computes
and CHECKs and inserts the debug-marker flag (both marker pointers
non-null). none models any CHECK firing. -/
def CreateDeviceDispatchTable (s : DispatchTable) (mem : Memory) (device : Handle)
    (next_get_device_proc_addr_function : Resolver) : Option DispatchTable :=
  let dispatch_table := resolvedDeviceDispatchTable device next_get_device_proc_addr_function
  let key := GetDispatchTableKey mem device
  if (s.device_dispatch_table_ key).isSome then none
  else
    let s1 := { s with
      device_dispatch_table_ := mapInsert s.device_dispatch_table_ key dispatch_table }
    if (s1.device_supports_debug_utils_extension_ key).isSome then none
    else
      let s2 := { s1 with
        device_supports_debug_utils_extension_ :=
          mapInsert s1.device_supports_debug_utils_extension_ key
            ((dispatch_table.CmdBeginDebugUtilsLabelEXT != nullPtr) &&
             (dispatch_table.CmdEndDebugUtilsLabelEXT != nullPtr)) }
      if (s2.device_supports_debug_marker_extension_ key).isSome then none
      else some { s2 with
        device_supports_debug_marker_extension_ :=
          mapInsert s2.device_supports_debug_marker_extension_ key
            ((dispatch_table.CmdDebugMarkerBeginEXT != nullPtr) &&
             (dispatch_table.CmdDebugMarkerEndEXT != nullPtr)) }

/-- RemoveDeviceDispatchTable: derives the key from the device handle and,
in source order, CHECKs and erases the device_dispatch_table_ entry, the
debug-utils flag and the debug-marker flag. none models any CHECK firing. -/
def RemoveDeviceDispatchTable (s : DispatchTable) (mem : Memory) (device : Handle) :
    Option DispatchTable :=
  let key := GetDispatchTableKey mem device
  if (s.device_dispatch_table_ key).isSome then
    let s1 := { s with device_dispatch_table_ := mapErase s.device_dispatch_table_ key }
    if (s1.device_supports_debug_utils_extension_ key).isSome then
      let s2 := { s1 with
        device_supports_debug_utils_extension_ :=
          mapErase s1.device_supports_debug_utils_extension_ key }
      if (s2.device_supports_debug_marker_extension_ key).isSome then
        some { s2 with
          device_supports_debug_marker_extension_ :=
            mapErase s2.device_supports_debug_marker_extension_ key }
      else none
    else none
  else none

/-- Lookup accessor DestroyDevice: derives the key from the dispatchable
object, CHECKs the device entry exists and CHECKs the stored pointer is
non-null, then returns it; none models a fatal CHECK. -/
def DestroyDevice (s : DispatchTable) (mem : Memory) (dispatchable_object : Handle) :
    Option FnPtr :=
  let key := GetDispatchTableKey mem dispatchable_object
  match s.device_dispatch_table_ key with
  | none => none
  | some dt => if dt.DestroyDevice != nullPtr then some dt.DestroyDevice else none

/-- Lookup accessor DestroyInstance (instance table). -/
def DestroyInstance (s : DispatchTable) (mem : Memory) (dispatchable_object : Handle) :
    Option FnPtr :=
  let key := GetDispatchTableKey mem dispatchable_object
  match s.instance_dispatch_table_ key with
  | none => none
  | some dt => if dt.DestroyInstance != nullPtr then some dt.DestroyInstance else none

/-- Lookup accessor EnumerateDeviceExtensionProperties (instance table). -/
def EnumerateDeviceExtensionProperties (s : DispatchTable) (mem : Memory)
    (dispatchable_object : Handle) : Option FnPtr :=
  let key := GetDispatchTableKey mem dispatchable_object
  match s.instance_dispatch_table_ key with
  | none => none
  | some dt =>
    if dt.EnumerateDeviceExtensionProperties != nullPtr then
      some dt.EnumerateDeviceExtensionProperties
    else none

/-- Lookup accessor GetPhysicalDeviceProperties (instance table). -/
def GetPhysicalDeviceProperties (s : DispatchTable) (mem : Memory)
    (dispatchable_object : Handle) : Option FnPtr :=
  let key := GetDispatchTableKey mem dispatchable_object
  match s.instance_dispatch_table_ key with
  | none => none
  | some dt =>
    if dt.GetPhysicalDeviceProperties != nullPtr then some dt.GetPhysicalDeviceProperties
    else none

/-- Lookup accessor GetInstanceProcAddr (instance table). -/
def GetInstanceProcAddr (s : DispatchTable) (mem : Memory) (dispatchable_object : Handle) :
    Option FnPtr :=
  let key := GetDispatchTableKey mem dispatchable_object
  match s.instance_dispatch_table_ key with
  | none => none
  | some dt => if dt.GetInstanceProcAddr != nullPtr then some dt.GetInstanceProcAddr else none

/-- Lookup accessor GetDeviceProcAddr (device table). -/
def GetDeviceProcAddr (s : DispatchTable) (mem : Memory) (dispatchable_object : Handle) :
    Option FnPtr :=
  let key := GetDispatchTableKey mem dispatchable_object
  match s.device_dispatch_table_ key with
  | none => none
  | some dt => if dt.GetDeviceProcAddr != nullPtr then some dt.GetDeviceProcAddr else none

/-- Lookup accessor ResetCommandPool (device table). -/
def ResetCommandPool (s : DispatchTable) (mem : Memory) (dispatchable_object : Handle) :
    Option FnPtr :=
  let key := GetDispatchTableKey mem dispatchable_object
  match s.device_dispatch_table_ key with
  | none => none
  | some dt => if dt.ResetCommandPool != nullPtr then some dt.ResetCommandPool else none

/-- Lookup accessor AllocateCommandBuffers (device table). -/
def AllocateCommandBuffers (s : DispatchTable) (mem : Memory) (dispatchable_object : Handle) :
    Option FnPtr :=
  let key := GetDispatchTableKey mem dispatchable_object
  match s.device_dispatch_table_ key with
  | none => none
  | some dt =>
    if dt.AllocateCommandBuffers != nullPtr then some dt.AllocateCommandBuffers else none

/-- Lookup accessor FreeCommandBuffers (device table). -/
def FreeCommandBuffers (s : DispatchTable) (mem : Memory) (dispatchable_object : Handle) :
    Option FnPtr :=
  let key := GetDispatchTableKey mem dispatchable_object
  match s.device_dispatch_table_ key with
  | none => none
  | some dt => if dt.FreeCommandBuffers != nullPtr then some dt.FreeCommandBuffers else none

/-- Lookup accessor BeginCommandBuffer (device table). -/
def BeginCommandBuffer (s : DispatchTable) (mem : Memory) (dispatchable_object : Handle) :
    Option FnPtr :=
  let key := GetDispatchTableKey mem dispatchable_object
  match s.device_dispatch_table_ key with
  | none => none
  | some dt => if dt.BeginCommandBuffer != nullPtr then some dt.BeginCommandBuffer else none

/-- Lookup accessor EndCommandBuffer (device table). -/
def EndCommandBuffer (s : DispatchTable) (mem : Memory) (dispatchable_object : Handle) :
    Option FnPtr :=
  let key := GetDispatchTableKey mem dispatchable_object
  match s.device_dispatch_table_ key with
  | none => none
  | some dt => if dt.EndCommandBuffer != nullPtr then some dt.EndCommandBuffer else none

/-- Lookup accessor ResetCommandBuffer (device table). -/
def ResetCommandBuffer (s : DispatchTable) (mem : Memory) (dispatchable_object : Handle) :
    Option FnPtr :=
  let key := GetDispatchTableKey mem dispatchable_object
  match s.device_dispatch_table_ key with
  | none => none
  | some dt => if dt.ResetCommandBuffer != nullPtr then some dt.ResetCommandBuffer else none

/-- Lookup accessor GetDeviceQueue (device table). -/
def GetDeviceQueue (s : DispatchTable) (mem : Memory) (dispatchable_object : Handle) :
    Option FnPtr :=
  let key := GetDispatchTableKey mem dispatchable_object
  match s.device_dispatch_table_ key with
  | none => none
  | some dt => if dt.GetDeviceQueue != nullPtr then some dt.GetDeviceQueue else none

/-- Lookup accessor GetDeviceQueue2 (device table). -/
def GetDeviceQueue2 (s : DispatchTable) (mem : Memory) (dispatchable_object : Handle) :
    Option FnPtr :=
  let key := GetDispatchTableKey mem dispatchable_object
  match s.device_dispatch_table_ key with
  | none => none
  | some dt => if dt.GetDeviceQueue2 != nullPtr then some dt.GetDeviceQueue2 else none

/-- Lookup accessor QueueSubmit (device table). -/
def QueueSubmit (s : DispatchTable) (mem : Memory) (dispatchable_object : Handle) :
    Option FnPtr :=
  let key := GetDispatchTableKey mem dispatchable_object
  match s.device_dispatch_table_ key with
  | none => none
  | some dt => if dt.QueueSubmit != nullPtr then some dt.QueueSubmit else none

/-- Lookup accessor QueuePresentKHR (device table). -/
def QueuePresentKHR (s : DispatchTable) (mem : Memory) (dispatchable_object : Handle) :
    Option FnPtr :=
  let key := GetDispatchTableKey mem dispatchable_object
  match s.device_dispatch_table_ key with
  | none => none
  | some dt => if dt.QueuePresentKHR != nullPtr then some dt.QueuePresentKHR else none

/-- Lookup accessor CreateQueryPool (device table). -/
def CreateQueryPool (s : DispatchTable) (mem : Memory) (dispatchable_object : Handle) :
    Option FnPtr :=
  let key := GetDispatchTableKey mem dispatchable_object
  match s.device_dispatch_table_ key with
  | none => none
  | some dt => if dt.CreateQueryPool != nullPtr then some dt.CreateQueryPool else none

/-- Lookup accessor ResetQueryPoolEXT (device table). -/
def ResetQueryPoolEXT (s : DispatchTable) (mem : Memory) (dispatchable_object : Handle) :
    Option FnPtr :=
  let key := GetDispatchTableKey mem dispatchable_object
  match s.device_dispatch_table_ key with
  | none => none
  | some dt => if dt.ResetQueryPoolEXT != nullPtr then some dt.ResetQueryPoolEXT else none

/-- Lookup accessor GetQueryPoolResults (device table). -/
def GetQueryPoolResults (s : DispatchTable) (mem : Memory) (dispatchable_object : Handle) :
    Option FnPtr :=
  let key := GetDispatchTableKey mem dispatchable_object
  match s.device_dispatch_table_ key with
  | none => none
  | some dt => if dt.GetQueryPoolResults != nullPtr then some dt.GetQueryPoolResults else none

/-- Lookup accessor CmdWriteTimestamp (device table). -/
def CmdWriteTimestamp (s : DispatchTable) (mem : Memory) (dispatchable_object : Handle) :
    Option FnPtr :=
  let key := GetDispatchTableKey mem dispatchable_object
  match s.device_dispatch_table_ key with
  | none => none
  | some dt => if dt.CmdWriteTimestamp != nullPtr then some dt.CmdWriteTimestamp else none

/-- Lookup accessor CmdBeginDebugUtilsLabelEXT (device table). -/
def CmdBeginDebugUtilsLabelEXT (s : DispatchTable) (mem : Memory)
    (dispatchable_object : Handle) : Option FnPtr :=
  let key := GetDispatchTableKey mem dispatchable_object
  match s.device_dispatch_table_ key with
  | none => none
  | some dt =>
    if dt.CmdBeginDebugUtilsLabelEXT != nullPtr then some dt.CmdBeginDebugUtilsLabelEXT
    else none

/-- Lookup accessor CmdEndDebugUtilsLabelEXT (device table). -/
def CmdEndDebugUtilsLabelEXT (s : DispatchTable) (mem : Memory)
    (dispatchable_object : Handle) : Option FnPtr :=
  let key := GetDispatchTableKey mem dispatchable_object
  match s.device_dispatch_table_ key with
  | none => none
  | some dt =>
    if dt.CmdEndDebugUtilsLabelEXT != nullPtr then some dt.CmdEndDebugUtilsLabelEXT else none

/-- Lookup accessor CmdDebugMarkerBeginEXT (device table). -/
def CmdDebugMarkerBeginEXT (s : DispatchTable) (mem : Memory)
    (dispatchable_object : Handle) : Option FnPtr :=
  let key := GetDispatchTableKey mem dispatchable_object
  match s.device_dispatch_table_ key with
  | none => none
  | some dt =>
    if dt.CmdDebugMarkerBeginEXT != nullPtr then some dt.CmdDebugMarkerBeginEXT else none

/-- Lookup accessor CmdDebugMarkerEndEXT (device table). -/
def CmdDebugMarkerEndEXT (s : DispatchTable) (mem : Memory)
    (dispatchable_object : Handle) : Option FnPtr :=
  let key := GetDispatchTableKey mem dispatchable_object
  match s.device_dispatch_table_ key with
  | none => none
  | some dt =>
    if dt.CmdDebugMarkerEndEXT != nullPtr then some dt.CmdDebugMarkerEndEXT else none

/-- IsDebugMarkerExtensionSupported: derives the key, CHECKs the
debug-marker flag map contains it (none models the fatal CHECK) and
returns the stored flag. -/
def IsDebugMarkerExtensionSupported (s : DispatchTable) (mem : Memory)
    (dispatchable_object : Handle) : Option Bool :=
  let key := GetDispatchTableKey mem dispatchable_object
  s.device_supports_debug_marker_extension_ key

/-- IsDebugUtilsExtensionSupported: derives the key, CHECKs the debug-utils
flag map contains it (none models the fatal CHECK) and returns the stored
flag. -/
def IsDebugUtilsExtensionSupported (s : DispatchTable) (mem : Memory)
    (dispatchable_object : Handle) : Option Bool :=
  let key := GetDispatchTableKey mem dispatchable_object
  s.device_supports_debug_utils_extension_ key

/-- A mutating registry operation: one call to a Create or Remove member of
class DispatchTable, with the memory state the call runs under. -/
inductive RegistryOp where
  | createInstanceOp (mem : Memory) (inst : Handle) (resolver : Resolver)
  | removeInstanceOp (mem : Memory) (inst : Handle)
  | createDeviceOp (mem : Memory) (device : Handle) (resolver : Resolver)
  | removeDeviceOp (mem : Memory) (device : Handle)

/-- Runs one mutating operation on the registry; none models a fatal CHECK
inside the operation. -/
def applyOp (s : DispatchTable) : RegistryOp → Option DispatchTable
  | .createInstanceOp mem inst r => CreateInstanceDispatchTable s mem inst r
  | .removeInstanceOp mem inst => RemoveInstanceDispatchTable s mem inst
  | .createDeviceOp mem device r => CreateDeviceDispatchTable s mem device r
  | .removeDeviceOp mem device => RemoveDeviceDispatchTable s mem device

/-- The registry states reachable from the default-constructed DispatchTable
by successful Create/Remove operations. -/
inductive Reachable : DispatchTable → Prop where
  | init : Reachable DispatchTable.init
  | step {s s' : DispatchTable} {op : RegistryOp} :
      Reachable s → applyOp s op = some s' → Reachable s'

/-- A read-only call on the registry: one call to a lookup accessor or to an
extension-support predicate of class DispatchTable. -/
inductive ReadCall where
  | destroyDeviceCall (mem : Memory) (obj : Handle)
  | destroyInstanceCall (mem : Memory) (obj : Handle)
  | enumerateDeviceExtensionPropertiesCall (mem : Memory) (obj : Handle)
  | getPhysicalDevicePropertiesCall (mem : Memory) (obj : Handle)
  | getInstanceProcAddrCall (mem : Memory) (obj : Handle)
  | getDeviceProcAddrCall (mem : Memory) (obj : Handle)
  | resetCommandPoolCall (mem : Memory) (obj : Handle)
  | allocateCommandBuffersCall (mem : Memory) (obj : Handle)
  | freeCommandBuffersCall (mem : Memory) (obj : Handle)
  | beginCommandBufferCall (mem : Memory) (obj : Handle)
  | endCommandBufferCall (mem : Memory) (obj : Handle)
  | resetCommandBufferCall (mem : Memory) (obj : Handle)
  | getDeviceQueueCall (mem : Memory) (obj : Handle)
  | getDeviceQueue2Call (mem : Memory) (obj : Handle)
  | queueSubmitCall (mem : Memory) (obj : Handle)
  | queuePresentKHRCall (mem : Memory) (obj : Handle)
  | createQueryPoolCall (mem : Memory) (obj : Handle)
  | resetQueryPoolEXTCall (mem : Memory) (obj : Handle)
  | getQueryPoolResultsCall (mem : Memory) (obj : Handle)
  | cmdWriteTimestampCall (mem : Memory) (obj : Handle)
  | cmdBeginDebugUtilsLabelEXTCall (mem : Memory) (obj : Handle)
  | cmdEndDebugUtilsLabelEXTCall (mem : Memory) (obj : Handle)
  | cmdDebugMarkerBeginEXTCall (mem : Memory) (obj : Handle)
  | cmdDebugMarkerEndEXTCall (mem : Memory) (obj : Handle)
  | isDebugMarkerExtensionSupportedCall (mem : Memory) (obj : Handle)
  | isDebugUtilsExtensionSupportedCall (mem : Memory) (obj : Handle)

/-- The observable outcome of a read-only call: a pointer (for a lookup
accessor) or a flag (for an extension-support predicate); none inside means
the call hit a fatal CHECK. -/
inductive ReadResult where
  | ptrResult (p : Option FnPtr)
  | flagResult (b : Option Bool)
  deriving DecidableEq

/-- Runs one read-only call: each accessor of class DispatchTable only reads
the maps under a reader lock and returns, so the call yields its result
together with the registry state as the call leaves it. -/
def runReadCall (s : DispatchTable) : ReadCall → ReadResult × DispatchTable
  | .destroyDeviceCall mem obj => (.ptrResult (DestroyDevice s mem obj), s)
  | .destroyInstanceCall mem obj => (.ptrResult (DestroyInstance s mem obj), s)
  | .enumerateDeviceExtensionPropertiesCall mem obj =>
      (.ptrResult (EnumerateDeviceExtensionProperties s mem obj), s)
  | .getPhysicalDevicePropertiesCall mem obj =>
      (.ptrResult (GetPhysicalDeviceProperties s mem obj), s)
  | .getInstanceProcAddrCall mem obj => (.ptrResult (GetInstanceProcAddr s mem obj), s)
  | .getDeviceProcAddrCall mem obj => (.ptrResult (GetDeviceProcAddr s mem obj), s)
  | .resetCommandPoolCall mem obj => (.ptrResult (ResetCommandPool s mem obj), s)
  | .allocateCommandBuffersCall mem obj => (.ptrResult (AllocateCommandBuffers s mem obj), s)
  | .freeCommandBuffersCall mem obj => (.ptrResult (FreeCommandBuffers s mem obj), s)
  | .beginCommandBufferCall mem obj => (.ptrResult (BeginCommandBuffer s mem obj), s)
  | .endCommandBufferCall mem obj => (.ptrResult (EndCommandBuffer s mem obj), s)
  | .resetCommandBufferCall mem obj => (.ptrResult (ResetCommandBuffer s mem obj), s)
  | .getDeviceQueueCall mem obj => (.ptrResult (GetDeviceQueue s mem obj), s)
  | .getDeviceQueue2Call mem obj => (.ptrResult (GetDeviceQueue2 s mem obj), s)
  | .queueSubmitCall mem obj => (.ptrResult (QueueSubmit s mem obj), s)
  | .queuePresentKHRCall mem obj => (.ptrResult (QueuePresentKHR s mem obj), s)
  | .createQueryPoolCall mem obj => (.ptrResult (CreateQueryPool s mem obj), s)
  | .resetQueryPoolEXTCall mem obj => (.ptrResult (ResetQueryPoolEXT s mem obj), s)
  | .getQueryPoolResultsCall mem obj => (.ptrResult (GetQueryPoolResults s mem obj), s)
  | .cmdWriteTimestampCall mem obj => (.ptrResult (CmdWriteTimestamp s mem obj), s)
  | .cmdBeginDebugUtilsLabelEXTCall mem obj =>
      (.ptrResult (CmdBeginDebugUtilsLabelEXT s mem obj), s)
  | .cmdEndDebugUtilsLabelEXTCall mem obj =>
      (.ptrResult (CmdEndDebugUtilsLabelEXT s mem obj), s)
  | .cmdDebugMarkerBeginEXTCall mem obj => (.ptrResult (CmdDebugMarkerBeginEXT s mem obj), s)
  | .cmdDebugMarkerEndEXTCall mem obj => (.ptrResult (CmdDebugMarkerEndEXT s mem obj), s)
  | .isDebugMarkerExtensionSupportedCall mem obj =>
      (.flagResult (IsDebugMarkerExtensionSupported s mem obj), s)
  | .isDebugUtilsExtensionSupportedCall mem obj =>
      (.flagResult (IsDebugUtilsExtensionSupported s mem obj), s)

/-- The registry state after a sequence of read-only calls. -/
def runReadCalls (s : DispatchTable) : List ReadCall → DispatchTable
  | [] => s
  | c :: cs => runReadCalls (runReadCall s c).2 cs

/-- The capability-flag/entry coupling: a debug-utils flag and a
debug-marker flag are stored for a key exactly when a device dispatch table
is stored for that key. -/
def FlagsEntryInvariant (s : DispatchTable) : Prop :=
  ∀ key : DispatchKey,
    ((s.device_dispatch_table_ key).isSome ↔
      (s.device_supports_debug_utils_extension_ key).isSome) ∧
    ((s.device_dispatch_table_ key).isSome ↔
      (s.device_supports_debug_marker_extension_ key).isSome)

/-- A code region handed to the frame-pointer validator: an address range
with identifying metadata (orbit_grpc_protos::CodeBlock). -/
structure CodeBlock where
  address : Nat
  size : Nat
  deriving DecidableEq

/-- Modelled from the spec: the implementation of
FramePointerValidator::GetFpoFunctions is not among the repository's files
(src/ holds only its declaration in FramePointerValidator.h). Following
that header's contract, the function checks all given functions for
frame-pointer setup and returns the ones where validation failed, or
nullopt if there was an error during validation. The per-function check
and the analysis-error condition are abstracted as the parameters
hasFramePointers and analysisSucceeded. -/
def FramePointerValidator.GetFpoFunctions (analysisSucceeded : Bool)
    (hasFramePointers : CodeBlock → Bool) (functions : List CodeBlock)
    (_file_name : String) (_is_64_bit : Bool) : Option (List CodeBlock) :=
  if analysisSucceeded then some (functions.filter (fun f => !(hasFramePointers f)))
  else none

/-- A concrete memory for witnesses: the word stored at address h is h + 1. -/
def wMem : Memory := fun h => h + 1

/-- A concrete instance-level resolver: every name resolves to pointer 5. -/
def wInstRes : Resolver := fun _ _ => 5

/-- A concrete device-level resolver: every name resolves to pointer 7. -/
def wDevRes : Resolver := fun _ _ => 7

/-- A concrete device-level resolver that resolves vkCmdDebugMarkerBeginEXT
to null and every other name to pointer 9. -/
def wMarkerNullRes : Resolver :=
  fun _ name => if name = "vkCmdDebugMarkerBeginEXT" then nullPtr else 9

/-- The registry after registering instance handle 0 (key 1) on the empty
registry with wInstRes. -/
def wInstState : DispatchTable :=
  (CreateInstanceDispatchTable DispatchTable.init wMem 0 wInstRes).getD DispatchTable.init

/-- The registry after registering device handle 1 (key 2) on the empty
registry with wDevRes. -/
def wDevState : DispatchTable :=
  (CreateDeviceDispatchTable DispatchTable.init wMem 1 wDevRes).getD DispatchTable.init

/-- wDevState after removing device handle 1 again. -/
def wRemovedState : DispatchTable :=
  (RemoveDeviceDispatchTable wDevState wMem 1).getD DispatchTable.init

/-- The registry after registering device handle 1 (key 2) on the empty
registry with wMarkerNullRes. -/
def wMarkerNullState : DispatchTable :=
  (CreateDeviceDispatchTable DispatchTable.init wMem 1 wMarkerNullRes).getD DispatchTable.init

theorem mapInsert_self {V : Type} (m : DispatchKey → Option V) (key : DispatchKey) (v : V) :
    mapInsert m key v key = some v := by
  simp [mapInsert]

theorem mapInsert_other {V : Type} (m : DispatchKey → Option V) (key k : DispatchKey) (v : V)
    (hne : k ≠ key) : mapInsert m key v k = m k := by
  simp [mapInsert, hne]

theorem mapErase_self {V : Type} (m : DispatchKey → Option V) (key : DispatchKey) :
    mapErase m key key = none := by
  simp [mapErase]

theorem mapErase_other {V : Type} (m : DispatchKey → Option V) (key k : DispatchKey)
    (hne : k ≠ key) : mapErase m key k = m k := by
  simp [mapErase, hne]

/-- Characterization of a successful CreateInstanceDispatchTable call: the
key was absent and the instance table alone grows by the resolved entry. -/
theorem createInstance_eq {s s' : DispatchTable} {mem : Memory} {inst : Handle} {r : Resolver}
    (h : CreateInstanceDispatchTable s mem inst r = some s') :
    s.instance_dispatch_table_ (GetDispatchTableKey mem inst) = none ∧
    s'.instance_dispatch_table_ =
      mapInsert s.instance_dispatch_table_ (GetDispatchTableKey mem inst)
        (resolvedInstanceDispatchTable inst r) ∧
    s'.device_dispatch_table_ = s.device_dispatch_table_ ∧
    s'.device_supports_debug_utils_extension_ = s.device_supports_debug_utils_extension_ ∧
    s'.device_supports_debug_marker_extension_ = s.device_supports_debug_marker_extension_ := by
  unfold CreateInstanceDispatchTable at h
  dsimp only at h
  split at h
  · exact absurd h (by simp)
  · next hcond =>
    cases Option.some.inj h
    refine ⟨?_, rfl, rfl, rfl, rfl⟩
    simpa [Option.not_isSome_iff_eq_none] using hcond

/-- Characterization of a successful RemoveInstanceDispatchTable call: the
key was present and the instance table alone shrinks by the entry. -/
theorem removeInstance_eq {s s' : DispatchTable} {mem : Memory} {inst : Handle}
    (h : RemoveInstanceDispatchTable s mem inst = some s') :
    (s.instance_dispatch_table_ (GetDispatchTableKey mem inst)).isSome = true ∧
    s'.instance_dispatch_table_ =
      mapErase s.instance_dispatch_table_ (GetDispatchTableKey mem inst) ∧
    s'.device_dispatch_table_ = s.device_dispatch_table_ ∧
    s'.device_supports_debug_utils_extension_ = s.device_supports_debug_utils_extension_ ∧
    s'.device_supports_debug_marker_extension_ = s.device_supports_debug_marker_extension_ := by
  unfold RemoveInstanceDispatchTable at h
  dsimp only at h
  split at h
  · next hcond =>
    cases Option.some.inj h
    exact ⟨hcond, rfl, rfl, rfl, rfl⟩
  · exact absurd h (by simp)

/-- Characterization of a successful CreateDeviceDispatchTable call: the key
was absent from the device table and from both flag maps, the device table
grows by the resolved entry, and both flag maps grow by the conjunction of
their extension pair's pointers being non-null. -/
theorem createDevice_eq {s s' : DispatchTable} {mem : Memory} {device : Handle} {r : Resolver}
    (h : CreateDeviceDispatchTable s mem device r = some s') :
    s.device_dispatch_table_ (GetDispatchTableKey mem device) = none ∧
    s.device_supports_debug_utils_extension_ (GetDispatchTableKey mem device) = none ∧
    s.device_supports_debug_marker_extension_ (GetDispatchTableKey mem device) = none ∧
    s'.device_dispatch_table_ =
      mapInsert s.device_dispatch_table_ (GetDispatchTableKey mem device)
        (resolvedDeviceDispatchTable device r) ∧
    s'.device_supports_debug_utils_extension_ =
      mapInsert s.device_supports_debug_utils_extension_ (GetDispatchTableKey mem device)
        (((resolvedDeviceDispatchTable device r).CmdBeginDebugUtilsLabelEXT != nullPtr) &&
         ((resolvedDeviceDispatchTable device r).CmdEndDebugUtilsLabelEXT != nullPtr)) ∧
    s'.device_supports_debug_marker_extension_ =
      mapInsert s.device_supports_debug_marker_extension_ (GetDispatchTableKey mem device)
        (((resolvedDeviceDispatchTable device r).CmdDebugMarkerBeginEXT != nullPtr) &&
         ((resolvedDeviceDispatchTable device r).CmdDebugMarkerEndEXT != nullPtr)) ∧
    s'.instance_dispatch_table_ = s.instance_dispatch_table_ := by
  unfold CreateDeviceDispatchTable at h
  dsimp only at h
  split at h
  · exact absurd h (by simp)
  · next hc1 =>
    split at h
    · exact absurd h (by simp)
    · next hc2 =>
      split at h
      · exact absurd h (by simp)
      · next hc3 =>
        cases Option.some.inj h
        refine ⟨?_, ?_, ?_, rfl, rfl, rfl, rfl⟩
        · simpa [Option.not_isSome_iff_eq_none] using hc1
        · simpa [Option.not_isSome_iff_eq_none] using hc2
        · simpa [Option.not_isSome_iff_eq_none] using hc3

/-- Characterization of a successful RemoveDeviceDispatchTable call: the key
was present in the device table and in both flag maps, and all three maps
shrink by the key together. -/
theorem removeDevice_eq {s s' : DispatchTable} {mem : Memory} {device : Handle}
    (h : RemoveDeviceDispatchTable s mem device = some s') :
    (s.device_dispatch_table_ (GetDispatchTableKey mem device)).isSome = true ∧
    (s.device_supports_debug_utils_extension_ (GetDispatchTableKey mem device)).isSome = true ∧
    (s.device_supports_debug_marker_extension_ (GetDispatchTableKey mem device)).isSome = true ∧
    s'.device_dispatch_table_ =
      mapErase s.device_dispatch_table_ (GetDispatchTableKey mem device) ∧
    s'.device_supports_debug_utils_extension_ =
      mapErase s.device_supports_debug_utils_extension_ (GetDispatchTableKey mem device) ∧
    s'.device_supports_debug_marker_extension_ =
      mapErase s.device_supports_debug_marker_extension_ (GetDispatchTableKey mem device) ∧
    s'.instance_dispatch_table_ = s.instance_dispatch_table_ := by
  unfold RemoveDeviceDispatchTable at h
  dsimp only at h
  split at h
  · next hc1 =>
    split at h
    · next hc2 =>
      split at h
      · next hc3 =>
        cases Option.some.inj h
        exact ⟨hc1, hc2, hc3, rfl, rfl, rfl, rfl⟩
      · exact absurd h (by simp)
    · exact absurd h (by simp)
  · exact absurd h (by simp)

/-- Every reachable registry state couples the capability flags to the
device entries: both flags exist for a key exactly when the entry does. -/
theorem reachable_flagsEntryInvariant {s : DispatchTable} (h : Reachable s) :
    FlagsEntryInvariant s := by
  induction h with
  | init =>
    intro key
    simp [DispatchTable.init]
  | @step s s' op hreach hop ih =>
    cases op with
    | createInstanceOp mem inst r =>
      simp only [applyOp] at hop
      obtain ⟨-, -, hdev, hutils, hmarker⟩ := createInstance_eq hop
      intro key
      rw [hdev, hutils, hmarker]
      exact ih key
    | removeInstanceOp mem inst =>
      simp only [applyOp] at hop
      obtain ⟨-, -, hdev, hutils, hmarker⟩ := removeInstance_eq hop
      intro key
      rw [hdev, hutils, hmarker]
      exact ih key
    | createDeviceOp mem device r =>
      simp only [applyOp] at hop
      obtain ⟨-, -, -, hdev, hutils, hmarker, -⟩ := createDevice_eq hop
      intro key
      rw [hdev, hutils, hmarker]
      by_cases hk : key = GetDispatchTableKey mem device
      · subst hk
        simp [mapInsert]
      · rw [mapInsert_other _ _ _ _ hk, mapInsert_other _ _ _ _ hk,
          mapInsert_other _ _ _ _ hk]
        exact ih key
    | removeDeviceOp mem device =>
      simp only [applyOp] at hop
      obtain ⟨-, -, -, hdev, hutils, hmarker, -⟩ := removeDevice_eq hop
      intro key
      rw [hdev, hutils, hmarker]
      by_cases hk : key = GetDispatchTableKey mem device
      · subst hk
        simp [mapErase]
      · rw [mapErase_other _ _ _ hk, mapErase_other _ _ _ hk, mapErase_other _ _ _ hk]
        exact ih key

/-- A successful mutating operation never changes a stored debug-utils flag
value: it either leaves it as it was or erases it with its entry. -/
theorem applyOp_utils_flag {s s' : DispatchTable} {op : RegistryOp} (key : DispatchKey)
    (hop : applyOp s op = some s') (b : Bool)
    (hb : s.device_supports_debug_utils_extension_ key = some b) :
    s'.device_supports_debug_utils_extension_ key = some b ∨
    s'.device_supports_debug_utils_extension_ key = none := by
  cases op with
  | createInstanceOp mem inst r =>
    simp only [applyOp] at hop
    obtain ⟨-, -, -, hutils, -⟩ := createInstance_eq hop
    rw [hutils]
    exact Or.inl hb
  | removeInstanceOp mem inst =>
    simp only [applyOp] at hop
    obtain ⟨-, -, -, hutils, -⟩ := removeInstance_eq hop
    rw [hutils]
    exact Or.inl hb
  | createDeviceOp mem device r =>
    simp only [applyOp] at hop
    obtain ⟨-, habs, -, -, hutils, -, -⟩ := createDevice_eq hop
    rw [hutils]
    by_cases hk : key = GetDispatchTableKey mem device
    · subst hk
      rw [habs] at hb
      exact absurd hb (by simp)
    · rw [mapInsert_other _ _ _ _ hk]
      exact Or.inl hb
  | removeDeviceOp mem device =>
    simp only [applyOp] at hop
    obtain ⟨-, -, -, -, hutils, -, -⟩ := removeDevice_eq hop
    rw [hutils]
    by_cases hk : key = GetDispatchTableKey mem device
    · subst hk
      rw [mapErase_self]
      exact Or.inr rfl
    · rw [mapErase_other _ _ _ hk]
      exact Or.inl hb

/-- A successful mutating operation never changes a stored debug-marker
flag value: it either leaves it as it was or erases it with its entry. -/
theorem applyOp_marker_flag {s s' : DispatchTable} {op : RegistryOp} (key : DispatchKey)
    (hop : applyOp s op = some s') (b : Bool)
    (hb : s.device_supports_debug_marker_extension_ key = some b) :
    s'.device_supports_debug_marker_extension_ key = some b ∨
    s'.device_supports_debug_marker_extension_ key = none := by
  cases op with
  | createInstanceOp mem inst r =>
    simp only [applyOp] at hop
    obtain ⟨-, -, -, -, hmarker⟩ := createInstance_eq hop
    rw [hmarker]
    exact Or.inl hb
  | removeInstanceOp mem inst =>
    simp only [applyOp] at hop
    obtain ⟨-, -, -, -, hmarker⟩ := removeInstance_eq hop
    rw [hmarker]
    exact Or.inl hb
  | createDeviceOp mem device r =>
    simp only [applyOp] at hop
    obtain ⟨-, -, habs, -, -, hmarker, -⟩ := createDevice_eq hop
    rw [hmarker]
    by_cases hk : key = GetDispatchTableKey mem device
    · subst hk
      rw [habs] at hb
      exact absurd hb (by simp)
    · rw [mapInsert_other _ _ _ _ hk]
      exact Or.inl hb
  | removeDeviceOp mem device =>
    simp only [applyOp] at hop
    obtain ⟨-, -, -, -, -, hmarker, -⟩ := removeDevice_eq hop
    rw [hmarker]
    by_cases hk : key = GetDispatchTableKey mem device
    · subst hk
      rw [mapErase_self]
      exact Or.inr rfl
    · rw [mapErase_other _ _ _ hk]
      exact Or.inl hb

/-- C1: For every device key registered via CreateDeviceDispatchTable,
IsDebugUtilsExtensionSupported for that key returns true exactly when both
CmdBeginDebugUtilsLabelEXT and CmdEndDebugUtilsLabelEXT resolved non-null
at registration, IsDebugMarkerExtensionSupported returns true exactly when
both CmdDebugMarkerBeginEXT and CmdDebugMarkerEndEXT resolved non-null, and
no later successful operation ever changes a stored flag value: it can only
disappear together with its entry. -/
theorem C1_capability_flags_at_registration (s s' : DispatchTable) (mem : Memory)
    (device : Handle) (r : Resolver)
    (h : CreateDeviceDispatchTable s mem device r = some s') :
    IsDebugUtilsExtensionSupported s' mem device =
      some ((r device "vkCmdBeginDebugUtilsLabelEXT" != nullPtr) &&
            (r device "vkCmdEndDebugUtilsLabelEXT" != nullPtr)) ∧
    IsDebugMarkerExtensionSupported s' mem device =
      some ((r device "vkCmdDebugMarkerBeginEXT" != nullPtr) &&
            (r device "vkCmdDebugMarkerEndEXT" != nullPtr)) ∧
    (∀ (t t' : DispatchTable) (op : RegistryOp) (b : Bool),
      applyOp t op = some t' →
      t.device_supports_debug_utils_extension_ (GetDispatchTableKey mem device) = some b →
      t'.device_supports_debug_utils_extension_ (GetDispatchTableKey mem device) = some b ∨
      t'.device_supports_debug_utils_extension_ (GetDispatchTableKey mem device) = none) ∧
    (∀ (t t' : DispatchTable) (op : RegistryOp) (b : Bool),
      applyOp t op = some t' →
      t.device_supports_debug_marker_extension_ (GetDispatchTableKey mem device) = some b →
      t'.device_supports_debug_marker_extension_ (GetDispatchTableKey mem device) = some b ∨
      t'.device_supports_debug_marker_extension_ (GetDispatchTableKey mem device) = none) := by
  obtain ⟨-, -, -, -, hutils, hmarker, -⟩ := createDevice_eq h
  refine ⟨?_, ?_, ?_, ?_⟩
  · dsimp only [IsDebugUtilsExtensionSupported]
    rw [hutils, mapInsert_self]
    rfl
  · dsimp only [IsDebugMarkerExtensionSupported]
    rw [hmarker, mapInsert_self]
    rfl
  · intro t t' op b hop hb
    exact applyOp_utils_flag _ hop b hb
  · intro t t' op b hop hb
    exact applyOp_marker_flag _ hop b hb

/-- Witness for C1: the concrete registration of device handle 1 with the
all-non-null resolver wDevRes. -/
theorem C1_capability_flags_witness :
    IsDebugUtilsExtensionSupported wDevState wMem 1 =
      some ((wDevRes 1 "vkCmdBeginDebugUtilsLabelEXT" != nullPtr) &&
            (wDevRes 1 "vkCmdEndDebugUtilsLabelEXT" != nullPtr)) ∧
    IsDebugMarkerExtensionSupported wDevState wMem 1 =
      some ((wDevRes 1 "vkCmdDebugMarkerBeginEXT" != nullPtr) &&
            (wDevRes 1 "vkCmdDebugMarkerEndEXT" != nullPtr)) := by
  obtain ⟨h1, h2, -, -⟩ :=
    C1_capability_flags_at_registration DispatchTable.init wDevState wMem 1 wDevRes rfl
  exact ⟨h1, h2⟩

/-- C2: after CreateInstanceDispatchTable or CreateDeviceDispatchTable with
a resolver all of whose pointers for that handle are non-null, every
per-field lookup accessor for that key returns exactly the pointer the
resolver produced for that field. -/
theorem C2_create_lookup_roundtrip (s si sd : DispatchTable) (mem : Memory)
    (inst device : Handle) (ri rd : Resolver)
    (hri : ∀ name, ri inst name ≠ nullPtr) (hrd : ∀ name, rd device name ≠ nullPtr)
    (hi : CreateInstanceDispatchTable s mem inst ri = some si)
    (hd : CreateDeviceDispatchTable s mem device rd = some sd) :
    DestroyInstance si mem inst = some (ri inst "vkDestroyInstance") ∧
    GetInstanceProcAddr si mem inst = some (ri inst "vkGetInstanceProcAddr") ∧
    EnumerateDeviceExtensionProperties si mem inst =
      some (ri inst "vkEnumerateDeviceExtensionProperties") ∧
    GetPhysicalDeviceProperties si mem inst = some (ri inst "vkGetPhysicalDeviceProperties") ∧
    DestroyDevice sd mem device = some (rd device "vkDestroyDevice") ∧
    GetDeviceProcAddr sd mem device = some (rd device "vkGetDeviceProcAddr") ∧
    ResetCommandPool sd mem device = some (rd device "vkResetCommandPool") ∧
    AllocateCommandBuffers sd mem device = some (rd device "vkAllocateCommandBuffers") ∧
    FreeCommandBuffers sd mem device = some (rd device "vkFreeCommandBuffers") ∧
    BeginCommandBuffer sd mem device = some (rd device "vkBeginCommandBuffer") ∧
    EndCommandBuffer sd mem device = some (rd device "vkEndCommandBuffer") ∧
    ResetCommandBuffer sd mem device = some (rd device "vkResetCommandBuffer") ∧
    QueueSubmit sd mem device = some (rd device "vkQueueSubmit") ∧
    QueuePresentKHR sd mem device = some (rd device "vkQueuePresentKHR") ∧
    GetDeviceQueue sd mem device = some (rd device "vkGetDeviceQueue") ∧
    GetDeviceQueue2 sd mem device = some (rd device "vkGetDeviceQueue2") ∧
    CreateQueryPool sd mem device = some (rd device "vkCreateQueryPool") ∧
    ResetQueryPoolEXT sd mem device = some (rd device "vkResetQueryPoolEXT") ∧
    CmdWriteTimestamp sd mem device = some (rd device "vkCmdWriteTimestamp") ∧
    GetQueryPoolResults sd mem device = some (rd device "vkGetQueryPoolResults") ∧
    CmdBeginDebugUtilsLabelEXT sd mem device =
      some (rd device "vkCmdBeginDebugUtilsLabelEXT") ∧
    CmdEndDebugUtilsLabelEXT sd mem device = some (rd device "vkCmdEndDebugUtilsLabelEXT") ∧
    CmdDebugMarkerBeginEXT sd mem device = some (rd device "vkCmdDebugMarkerBeginEXT") ∧
    CmdDebugMarkerEndEXT sd mem device = some (rd device "vkCmdDebugMarkerEndEXT") := by
  obtain ⟨-, hins, -, -, -⟩ := createInstance_eq hi
  obtain ⟨-, -, -, hdev, -, -, -⟩ := createDevice_eq hd
  have hkeyi : si.instance_dispatch_table_ (GetDispatchTableKey mem inst) =
      some (resolvedInstanceDispatchTable inst ri) := by
    rw [hins, mapInsert_self]
  have hkeyd : sd.device_dispatch_table_ (GetDispatchTableKey mem device) =
      some (resolvedDeviceDispatchTable device rd) := by
    rw [hdev, mapInsert_self]
  refine ⟨?_, ?_, ?_, ?_, ?_, ?_, ?_, ?_, ?_, ?_, ?_, ?_, ?_, ?_, ?_, ?_, ?_, ?_, ?_, ?_,
    ?_, ?_, ?_, ?_⟩ <;>
  simp [DestroyInstance, GetInstanceProcAddr, EnumerateDeviceExtensionProperties,
    GetPhysicalDeviceProperties, DestroyDevice, GetDeviceProcAddr, ResetCommandPool,
    AllocateCommandBuffers, FreeCommandBuffers, BeginCommandBuffer, EndCommandBuffer,
    ResetCommandBuffer, GetDeviceQueue, GetDeviceQueue2, QueueSubmit, QueuePresentKHR,
    CreateQueryPool, ResetQueryPoolEXT, GetQueryPoolResults, CmdWriteTimestamp,
    CmdBeginDebugUtilsLabelEXT, CmdEndDebugUtilsLabelEXT, CmdDebugMarkerBeginEXT,
    CmdDebugMarkerEndEXT, hkeyi, hkeyd, resolvedInstanceDispatchTable,
    resolvedDeviceDispatchTable, bne_iff_ne, hri, hrd]

/-- Witness for C2: instance handle 0 registered with wInstRes and device
handle 1 registered with wDevRes on the empty registry. -/
theorem C2_create_lookup_roundtrip_witness :
    DestroyInstance wInstState wMem 0 = some (wInstRes 0 "vkDestroyInstance") ∧
    GetInstanceProcAddr wInstState wMem 0 = some (wInstRes 0 "vkGetInstanceProcAddr") ∧
    EnumerateDeviceExtensionProperties wInstState wMem 0 =
      some (wInstRes 0 "vkEnumerateDeviceExtensionProperties") ∧
    GetPhysicalDeviceProperties wInstState wMem 0 =
      some (wInstRes 0 "vkGetPhysicalDeviceProperties") ∧
    DestroyDevice wDevState wMem 1 = some (wDevRes 1 "vkDestroyDevice") ∧
    GetDeviceProcAddr wDevState wMem 1 = some (wDevRes 1 "vkGetDeviceProcAddr") ∧
    ResetCommandPool wDevState wMem 1 = some (wDevRes 1 "vkResetCommandPool") ∧
    AllocateCommandBuffers wDevState wMem 1 = some (wDevRes 1 "vkAllocateCommandBuffers") ∧
    FreeCommandBuffers wDevState wMem 1 = some (wDevRes 1 "vkFreeCommandBuffers") ∧
    BeginCommandBuffer wDevState wMem 1 = some (wDevRes 1 "vkBeginCommandBuffer") ∧
    EndCommandBuffer wDevState wMem 1 = some (wDevRes 1 "vkEndCommandBuffer") ∧
    ResetCommandBuffer wDevState wMem 1 = some (wDevRes 1 "vkResetCommandBuffer") ∧
    QueueSubmit wDevState wMem 1 = some (wDevRes 1 "vkQueueSubmit") ∧
    QueuePresentKHR wDevState wMem 1 = some (wDevRes 1 "vkQueuePresentKHR") ∧
    GetDeviceQueue wDevState wMem 1 = some (wDevRes 1 "vkGetDeviceQueue") ∧
    GetDeviceQueue2 wDevState wMem 1 = some (wDevRes 1 "vkGetDeviceQueue2") ∧
    CreateQueryPool wDevState wMem 1 = some (wDevRes 1 "vkCreateQueryPool") ∧
    ResetQueryPoolEXT wDevState wMem 1 = some (wDevRes 1 "vkResetQueryPoolEXT") ∧
    CmdWriteTimestamp wDevState wMem 1 = some (wDevRes 1 "vkCmdWriteTimestamp") ∧
    GetQueryPoolResults wDevState wMem 1 = some (wDevRes 1 "vkGetQueryPoolResults") ∧
    CmdBeginDebugUtilsLabelEXT wDevState wMem 1 =
      some (wDevRes 1 "vkCmdBeginDebugUtilsLabelEXT") ∧
    CmdEndDebugUtilsLabelEXT wDevState wMem 1 = some (wDevRes 1 "vkCmdEndDebugUtilsLabelEXT") ∧
    CmdDebugMarkerBeginEXT wDevState wMem 1 = some (wDevRes 1 "vkCmdDebugMarkerBeginEXT") ∧
    CmdDebugMarkerEndEXT wDevState wMem 1 = some (wDevRes 1 "vkCmdDebugMarkerEndEXT") :=
  C2_create_lookup_roundtrip DispatchTable.init wInstState wDevState wMem 0 1 wInstRes wDevRes
    (fun _ => Nat.succ_ne_zero 4) (fun _ => Nat.succ_ne_zero 6) rfl rfl

/-- C3: in every reachable registry state the capability flags for a device
key exist exactly when the device entry does; CreateDeviceDispatchTable
establishes the entry and both flags together and RemoveDeviceDispatchTable
removes all three together. -/
theorem C3_flags_entry_coupling :
    (∀ s : DispatchTable, Reachable s → FlagsEntryInvariant s) ∧
    (∀ (s s' : DispatchTable) (mem : Memory) (device : Handle) (r : Resolver),
      CreateDeviceDispatchTable s mem device r = some s' →
      (s'.device_dispatch_table_ (GetDispatchTableKey mem device)).isSome = true ∧
      (s'.device_supports_debug_utils_extension_ (GetDispatchTableKey mem device)).isSome
        = true ∧
      (s'.device_supports_debug_marker_extension_ (GetDispatchTableKey mem device)).isSome
        = true) ∧
    (∀ (s s' : DispatchTable) (mem : Memory) (device : Handle),
      RemoveDeviceDispatchTable s mem device = some s' →
      s'.device_dispatch_table_ (GetDispatchTableKey mem device) = none ∧
      s'.device_supports_debug_utils_extension_ (GetDispatchTableKey mem device) = none ∧
      s'.device_supports_debug_marker_extension_ (GetDispatchTableKey mem device) = none) := by
  refine ⟨fun s hs => reachable_flagsEntryInvariant hs, ?_, ?_⟩
  · intro s s' mem device r h
    obtain ⟨-, -, -, hdev, hutils, hmarker, -⟩ := createDevice_eq h
    rw [hdev, hutils, hmarker, mapInsert_self, mapInsert_self, mapInsert_self]
    exact ⟨rfl, rfl, rfl⟩
  · intro s s' mem device h
    obtain ⟨-, -, -, hdev, hutils, hmarker, -⟩ := removeDevice_eq h
    rw [hdev, hutils, hmarker, mapErase_self, mapErase_self, mapErase_self]
    exact ⟨rfl, rfl, rfl⟩

/-- Witness for C3: the coupling invariant holds at a concrete reachable
state, the registry with device handle 1 registered. -/
theorem C3_flags_entry_coupling_witness : FlagsEntryInvariant wDevState :=
  C3_flags_entry_coupling.1 wDevState
    (@Reachable.step DispatchTable.init wDevState (RegistryOp.createDeviceOp wMem 1 wDevRes)
      Reachable.init rfl)

/-- C4: after RemoveDeviceDispatchTable succeeds for a device key, every
device-table lookup accessor and both extension-support predicates for that
key hit their fatal CHECK (modelled as none): no stale data is returned. -/
theorem C4_remove_purges_state (s s' : DispatchTable) (mem : Memory) (device : Handle)
    (h : RemoveDeviceDispatchTable s mem device = some s') :
    DestroyDevice s' mem device = none ∧
    GetDeviceProcAddr s' mem device = none ∧
    ResetCommandPool s' mem device = none ∧
    AllocateCommandBuffers s' mem device = none ∧
    FreeCommandBuffers s' mem device = none ∧
    BeginCommandBuffer s' mem device = none ∧
    EndCommandBuffer s' mem device = none ∧
    ResetCommandBuffer s' mem device = none ∧
    QueueSubmit s' mem device = none ∧
    QueuePresentKHR s' mem device = none ∧
    GetDeviceQueue s' mem device = none ∧
    GetDeviceQueue2 s' mem device = none ∧
    CreateQueryPool s' mem device = none ∧
    ResetQueryPoolEXT s' mem device = none ∧
    CmdWriteTimestamp s' mem device = none ∧
    GetQueryPoolResults s' mem device = none ∧
    CmdBeginDebugUtilsLabelEXT s' mem device = none ∧
    CmdEndDebugUtilsLabelEXT s' mem device = none ∧
    CmdDebugMarkerBeginEXT s' mem device = none ∧
    CmdDebugMarkerEndEXT s' mem device = none ∧
    IsDebugUtilsExtensionSupported s' mem device = none ∧
    IsDebugMarkerExtensionSupported s' mem device = none := by
  obtain ⟨-, -, -, hdev, hutils, hmarker, -⟩ := removeDevice_eq h
  have hkey : s'.device_dispatch_table_ (GetDispatchTableKey mem device) = none := by
    rw [hdev, mapErase_self]
  have hkeyu : s'.device_supports_debug_utils_extension_ (GetDispatchTableKey mem device)
      = none := by
    rw [hutils, mapErase_self]
  have hkeym : s'.device_supports_debug_marker_extension_ (GetDispatchTableKey mem device)
      = none := by
    rw [hmarker, mapErase_self]
  refine ⟨?_, ?_, ?_, ?_, ?_, ?_, ?_, ?_, ?_, ?_, ?_, ?_, ?_, ?_, ?_, ?_, ?_, ?_, ?_, ?_,
    ?_, ?_⟩ <;>
  simp [DestroyDevice, GetDeviceProcAddr, ResetCommandPool, AllocateCommandBuffers,
    FreeCommandBuffers, BeginCommandBuffer, EndCommandBuffer, ResetCommandBuffer,
    GetDeviceQueue, GetDeviceQueue2, QueueSubmit, QueuePresentKHR, CreateQueryPool,
    ResetQueryPoolEXT, GetQueryPoolResults, CmdWriteTimestamp, CmdBeginDebugUtilsLabelEXT,
    CmdEndDebugUtilsLabelEXT, CmdDebugMarkerBeginEXT, CmdDebugMarkerEndEXT,
    IsDebugUtilsExtensionSupported, IsDebugMarkerExtensionSupported, hkey, hkeyu, hkeym]

/-- Witness for C4: device handle 1 registered on the empty registry and
then removed; the two predicates hit their CHECK afterwards. -/
theorem C4_remove_purges_state_witness :
    IsDebugUtilsExtensionSupported wRemovedState wMem 1 = none ∧
    IsDebugMarkerExtensionSupported wRemovedState wMem 1 = none := by
  obtain ⟨-, -, -, -, -, -, -, -, -, -, -, -, -, -, -, -, -, -, -, -, h21, h22⟩ :=
    C4_remove_purges_state wDevState wRemovedState wMem 1 rfl
  exact ⟨h21, h22⟩

/-- C5: a Create succeeds exactly when its key is absent from the target
table and a Remove succeeds exactly when its key is present (for the device
operations, in any reachable state, where the flag maps are coupled to the
entry map); otherwise the operation hits its fatal CHECK. -/
theorem C5_create_remove_preconditions :
    (∀ (s : DispatchTable) (mem : Memory) (inst : Handle) (r : Resolver),
      (CreateInstanceDispatchTable s mem inst r).isSome = true ↔
        s.instance_dispatch_table_ (GetDispatchTableKey mem inst) = none) ∧
    (∀ (s : DispatchTable) (mem : Memory) (device : Handle) (r : Resolver), Reachable s →
      ((CreateDeviceDispatchTable s mem device r).isSome = true ↔
        s.device_dispatch_table_ (GetDispatchTableKey mem device) = none)) ∧
    (∀ (s : DispatchTable) (mem : Memory) (inst : Handle),
      (RemoveInstanceDispatchTable s mem inst).isSome = true ↔
        (s.instance_dispatch_table_ (GetDispatchTableKey mem inst)).isSome = true) ∧
    (∀ (s : DispatchTable) (mem : Memory) (device : Handle), Reachable s →
      ((RemoveDeviceDispatchTable s mem device).isSome = true ↔
        (s.device_dispatch_table_ (GetDispatchTableKey mem device)).isSome = true)) := by
  refine ⟨?_, ?_, ?_, ?_⟩
  · intro s mem inst r
    constructor
    · intro hsucc
      obtain ⟨s', hs'⟩ := Option.isSome_iff_exists.mp hsucc
      exact (createInstance_eq hs').1
    · intro habs
      unfold CreateInstanceDispatchTable
      dsimp only
      rw [habs]
      simp
  · intro s mem device r hreach
    constructor
    · intro hsucc
      obtain ⟨s', hs'⟩ := Option.isSome_iff_exists.mp hsucc
      exact (createDevice_eq hs').1
    · intro habs
      have inv := reachable_flagsEntryInvariant hreach (GetDispatchTableKey mem device)
      have hu : s.device_supports_debug_utils_extension_ (GetDispatchTableKey mem device)
          = none := by
        have := inv.1
        rw [habs] at this
        simpa [Option.not_isSome_iff_eq_none] using this.symm
      have hm : s.device_supports_debug_marker_extension_ (GetDispatchTableKey mem device)
          = none := by
        have := inv.2
        rw [habs] at this
        simpa [Option.not_isSome_iff_eq_none] using this.symm
      unfold CreateDeviceDispatchTable
      dsimp only
      rw [habs]
      simp [hu, hm]
  · intro s mem inst
    constructor
    · intro hsucc
      obtain ⟨s', hs'⟩ := Option.isSome_iff_exists.mp hsucc
      exact (removeInstance_eq hs').1
    · intro hpres
      unfold RemoveInstanceDispatchTable
      dsimp only
      rw [hpres]
      simp
  · intro s mem device hreach
    constructor
    · intro hsucc
      obtain ⟨s', hs'⟩ := Option.isSome_iff_exists.mp hsucc
      exact (removeDevice_eq hs').1
    · intro hpres
      have inv := reachable_flagsEntryInvariant hreach (GetDispatchTableKey mem device)
      have hu := inv.1.mp hpres
      have hm := inv.2.mp hpres
      unfold RemoveDeviceDispatchTable
      dsimp only
      rw [hpres, hu, hm]
      simp

/-- Witness for C5: on the empty registry, creating instance key 1 is
possible and removing absent device key 2 is not. -/
theorem C5_create_remove_preconditions_witness :
    ((CreateInstanceDispatchTable DispatchTable.init wMem 0 wInstRes).isSome = true ↔
      DispatchTable.init.instance_dispatch_table_ (GetDispatchTableKey wMem 0) = none) ∧
    ((RemoveDeviceDispatchTable DispatchTable.init wMem 1).isSome = true ↔
      (DispatchTable.init.device_dispatch_table_ (GetDispatchTableKey wMem 1)).isSome
        = true) :=
  ⟨C5_create_remove_preconditions.1 DispatchTable.init wMem 0 wInstRes,
   C5_create_remove_preconditions.2.2.2 DispatchTable.init wMem 1 Reachable.init⟩

/-- C6: CreateDeviceDispatchTable accepts a resolver that yields null for an
extension entry point and stores the null pointer, but the corresponding
lookup accessor then hits its fatal CHECK instead of returning the null
pointer; in general any device accessor of a stored-null field is fatal. -/
theorem C6_null_extension_lookup_fatal (s s' : DispatchTable) (mem : Memory)
    (device : Handle) (r : Resolver)
    (hnull : r device "vkCmdDebugMarkerBeginEXT" = nullPtr)
    (h : CreateDeviceDispatchTable s mem device r = some s') :
    (s'.device_dispatch_table_ (GetDispatchTableKey mem device)).map
      (fun dt => dt.CmdDebugMarkerBeginEXT) = some nullPtr ∧
    CmdDebugMarkerBeginEXT s' mem device = none ∧
    (∀ (t : DispatchTable) (mem2 : Memory) (obj : Handle) (dt : VkLayerDispatchTable),
      t.device_dispatch_table_ (GetDispatchTableKey mem2 obj) = some dt →
      dt.CmdBeginDebugUtilsLabelEXT = nullPtr →
      CmdBeginDebugUtilsLabelEXT t mem2 obj = none) := by
  obtain ⟨-, -, -, hdev, -, -, -⟩ := createDevice_eq h
  have hkey : s'.device_dispatch_table_ (GetDispatchTableKey mem device) =
      some (resolvedDeviceDispatchTable device r) := by
    rw [hdev, mapInsert_self]
  refine ⟨?_, ?_, ?_⟩
  · rw [hkey]
    simp [resolvedDeviceDispatchTable, hnull]
  · dsimp only [CmdDebugMarkerBeginEXT]
    rw [hkey]
    simp [resolvedDeviceDispatchTable, hnull]
  · intro t mem2 obj dt ht hdt
    dsimp only [CmdBeginDebugUtilsLabelEXT]
    rw [ht]
    simp [hdt]

/-- Witness for C6: device handle 1 registered with wMarkerNullRes, whose
vkCmdDebugMarkerBeginEXT pointer is null. -/
theorem C6_null_extension_lookup_fatal_witness :
    (wMarkerNullState.device_dispatch_table_ (GetDispatchTableKey wMem 1)).map
      (fun dt => dt.CmdDebugMarkerBeginEXT) = some nullPtr ∧
    CmdDebugMarkerBeginEXT wMarkerNullState wMem 1 = none := by
  obtain ⟨h1, h2, -⟩ :=
    C6_null_extension_lookup_fatal DispatchTable.init wMarkerNullState wMem 1 wMarkerNullRes
      rfl rfl
  exact ⟨h1, h2⟩

/-- C7: every lookup accessor and both extension-support predicates leave
the registry state unchanged (each read call returns the state it was given,
and so does any sequence of read calls), so a read call never changes the
outcome of a later read call: in particular two IsExtensionSupported calls
for the same live key return the same stored value. -/
theorem C7_reads_leave_state_unchanged :
    (∀ (s : DispatchTable) (c : ReadCall), (runReadCall s c).2 = s) ∧
    (∀ (s : DispatchTable) (cs : List ReadCall), runReadCalls s cs = s) ∧
    (∀ (s : DispatchTable) (cs : List ReadCall) (c : ReadCall),
      (runReadCall (runReadCalls s cs) c).1 = (runReadCall s c).1) := by
  have h1 : ∀ (s : DispatchTable) (c : ReadCall), (runReadCall s c).2 = s := by
    intro s c
    cases c <;> rfl
  have h2 : ∀ (s : DispatchTable) (cs : List ReadCall), runReadCalls s cs = s := by
    intro s cs
    induction cs generalizing s with
    | nil => rfl
    | cons c cs ih =>
      rw [runReadCalls, h1]
      exact ih s
  exact ⟨h1, h2, fun s cs c => by rw [h2]⟩

/-- Witness for C7: a concrete IsDebugUtilsExtensionSupported read call on
the registry holding device handle 1 leaves the state unchanged. -/
theorem C7_reads_leave_state_unchanged_witness :
    (runReadCall wDevState (ReadCall.isDebugUtilsExtensionSupportedCall wMem 1)).2
      = wDevState :=
  C7_reads_leave_state_unchanged.1 wDevState (ReadCall.isDebugUtilsExtensionSupportedCall wMem 1)

/-- C8: GetDispatchTableKey returns exactly the first machine word stored at
the address the handle refers to, and depends on nothing else: any two
handles in any two memories whose referenced first words agree derive equal
keys. -/
theorem C8_key_derivation_first_word :
    (∀ (mem : Memory) (h : Handle), GetDispatchTableKey mem h = mem h) ∧
    (∀ (mem1 mem2 : Memory) (h1 h2 : Handle), mem1 h1 = mem2 h2 →
      GetDispatchTableKey mem1 h1 = GetDispatchTableKey mem2 h2) :=
  ⟨fun _ _ => rfl, fun _ _ _ _ h => h⟩

/-- Witness for C8: two distinct handles in two distinct memories whose
first words are both 42 derive the same key. -/
theorem C8_key_derivation_first_word_witness :
    GetDispatchTableKey (fun _ => 42) 0 = GetDispatchTableKey (fun h => h + 40) 2 :=
  C8_key_derivation_first_word.2 (fun _ => 42) (fun h => h + 40) 0 2 rfl

/-- C10: FramePointerValidator::GetFpoFunctions returns either exactly the
subset of the given regions that fail the frame-pointer check, or no result
at all when the analysis itself failed; it never returns a partial result
in the failure case. -/
theorem C10_GetFpoFunctions_total_or_absent (analysisSucceeded : Bool)
    (hasFramePointers : CodeBlock → Bool) (functions : List CodeBlock)
    (file_name : String) (is_64_bit : Bool) :
    (analysisSucceeded = false →
      FramePointerValidator.GetFpoFunctions analysisSucceeded hasFramePointers functions
        file_name is_64_bit = none) ∧
    (analysisSucceeded = true →
      FramePointerValidator.GetFpoFunctions analysisSucceeded hasFramePointers functions
        file_name is_64_bit = some (functions.filter (fun f => !(hasFramePointers f))) ∧
      (functions.filter (fun f => !(hasFramePointers f))).Sublist functions) := by
  constructor
  · intro h
    subst h
    simp [FramePointerValidator.GetFpoFunctions]
  · intro h
    subst h
    exact ⟨by simp [FramePointerValidator.GetFpoFunctions], List.filter_sublist _⟩

/-- A concrete frame-pointer check for the C10 witness. -/
def wHasFp : CodeBlock → Bool := fun f => f.address == 0

/-- Concrete code regions for the C10 witness. -/
def wBlocks : List CodeBlock := [⟨0, 4⟩, ⟨8, 4⟩]

/-- Witness for C10: a successful analysis over two concrete regions
returns exactly the regions failing the check. -/
theorem C10_GetFpoFunctions_total_or_absent_witness :
    FramePointerValidator.GetFpoFunctions true wHasFp wBlocks "bin" true =
      some (wBlocks.filter (fun f => !(wHasFp f))) :=
  ((C10_GetFpoFunctions_total_or_absent true wHasFp wBlocks "bin" true).2 rfl).1
